import Mathlib

/-!
# Verification of the syndeos SSH-key backend

Shallow embedding of `src/src-tauri/src/controllers/ssh_key.rs` and the
command registration in `src/src-tauri/src/lib.rs`.

Modelling conventions:
* The SQLite `ssh_keys` table is a list of rows together with the counter
  that SQLite uses to assign the next rowid (`last_insert_rowid` after an
  insert).  Row identifiers are `Int` (SQLite `i64`), timestamps are the
  RFC 3339 strings produced by `chrono::Local::now().to_rfc3339()` and are
  passed in as an explicit `now` argument.
* A `conn.execute`/`INSERT`/`UPDATE`/`DELETE` statement can only fail for
  environmental reasons (I/O error, constraint violation); those failures
  are outside the embedding, so the statements are modelled as total.
  `query_row`, in contrast, fails *logically* when no row matches
  (rusqlite `QueryReturnedNoRows`, whose `to_string()` is
  "Query returned no rows"); that failure mode is modelled.
* The filesystem is a list of present paths plus a list of paths whose
  removal fails for environmental reasons (permissions and the like);
  `std::fs::remove_file` fails when the path is absent or environmentally
  failing.
-/

namespace Syndeos

/-- A stored row of the `ssh_keys` table (`id` is the concrete rowid
assigned by SQLite, every other column as in the schema). -/
structure Row where
  id : Int
  name : String
  path : String
  is_default : Bool
  created_at : String
  updated_at : String
  deriving DecidableEq, Repr

/-- The `SshKey` model struct returned to callers: `id: Option<i64>` in
the Rust model, the remaining fields as in `Row`. -/
structure SshKey where
  id : Option Int
  name : String
  path : String
  is_default : Bool
  created_at : String
  updated_at : String
  deriving DecidableEq, Repr

/-- Database state: the rows of `ssh_keys` and the rowid SQLite will
assign to the next inserted row. -/
structure Db where
  rows : List Row
  nextId : Int
  deriving DecidableEq, Repr

/-- Filesystem state: the set of existing files, and the paths whose
removal fails for environmental reasons (permissions etc.). -/
structure Fs where
  files : List String
  failing : List String
  deriving DecidableEq, Repr

/-- `std::fs::remove_file`: succeeds iff the path exists and is not
environmentally failing; on success the file is gone. -/
def removeFile (fs : Fs) (p : String) : Except String Fs :=
  if p ∈ fs.files ∧ p ∉ fs.failing then
    Except.ok { fs with files := fs.files.erase p }
  else
    Except.error "No such file or directory"

/-- `let _ = fs::remove_file(p)`: best-effort removal, failure ignored. -/
def tryRemoveFile (fs : Fs) (p : String) : Fs :=
  match removeFile fs p with
  | Except.ok fs1 => fs1
  | Except.error _ => fs

/-- The statement `UPDATE ssh_keys SET is_default = 0 WHERE is_default = 1`. -/
def clearDefaults (rows : List Row) : List Row :=
  rows.map (fun r => if r.is_default then { r with is_default := false } else r)

/-- `add_ssh_key` (ssh_key.rs lines 8-29): if `is_default`, first clear
every existing default, then insert a fresh row carrying `now` for both
timestamps; return `last_insert_rowid()` together with the new state. -/
def add_ssh_key (db : Db) (name path : String) (is_default : Bool) (now : String) :
    Int × Db :=
  let db1 := if is_default then { db with rows := clearDefaults db.rows } else db
  let newRow : Row :=
    { id := db1.nextId, name := name, path := path, is_default := is_default,
      created_at := now, updated_at := now }
  (db1.nextId, { rows := db1.rows ++ [newRow], nextId := db1.nextId + 1 })

/-- Convert a stored row to the `SshKey` struct built in the `query_row`
closures (`id` wrapped in `Some`). -/
def toSshKey (r : Row) : SshKey :=
  { id := some r.id, name := r.name, path := r.path, is_default := r.is_default,
    created_at := r.created_at, updated_at := r.updated_at }

/-- `get_ssh_key` (ssh_key.rs lines 31-48): `query_row` over
`SELECT ... WHERE id = ?1`; returns the first matching row or the
rusqlite no-rows error string. -/
def get_ssh_key (db : Db) (id : Int) : Except String SshKey :=
  match db.rows.find? (fun r => r.id == id) with
  | some r => Except.ok (toSshKey r)
  | none => Except.error "Query returned no rows"

/-- `get_ssh_keys` (ssh_key.rs lines 50-76): every row, in table order. -/
def get_ssh_keys (db : Db) : List SshKey :=
  db.rows.map toSshKey

/-- `set_default_ssh_key` (ssh_key.rs lines 78-95): clear every default,
then `UPDATE ssh_keys SET is_default = 1 WHERE id = ?1`; both statements
only fail environmentally, so the command returns `Ok(())`. -/
def set_default_ssh_key (db : Db) (id : Int) : Db × Except String Unit :=
  let rows1 := clearDefaults db.rows
  let rows2 := rows1.map (fun r => if r.id == id then { r with is_default := true } else r)
  ({ db with rows := rows2 }, Except.ok ())

/-- `delete_ssh_key` (ssh_key.rs lines 97-131).  When `delete_file` is
set, the row's path is looked up first (`query_row`, failing with the
no-rows error when the id is absent); then the row is deleted; then the
private key file is removed (failure aborts with an error, but the row
deletion has already happened); finally the `.pub` companion is removed
best-effort.  The result carries the final database and filesystem
states alongside the `Result<(), String>`. -/
def delete_ssh_key (db : Db) (fs : Fs) (id : Int) (delete_file : Bool) :
    Db × Fs × Except String Unit :=
  match (if delete_file then
           match db.rows.find? (fun r => r.id == id) with
           | some r => Except.ok (some r.path)
           | none => Except.error "Query returned no rows"
         else Except.ok none : Except String (Option String)) with
  | Except.error e => (db, fs, Except.error e)
  | Except.ok path? =>
    let db1 : Db := { db with rows := db.rows.filter (fun r => !(r.id == id)) }
    match path? with
    | some file_path =>
      if delete_file then
        match removeFile fs file_path with
        | Except.error e =>
            (db1, fs, Except.error ("Failed to delete key file: " ++ e))
        | Except.ok fs1 =>
            (db1, tryRemoveFile fs1 (file_path ++ ".pub"), Except.ok ())
      else (db1, fs, Except.ok ())
    | none => (db1, fs, Except.ok ())

/-- `PathBuf::join` on Unix: when the second component is absolute
(begins with the separator) it replaces the base entirely; otherwise the
component is appended, with a separator inserted unless the base is
empty or already ends with one. -/
def pathJoin (a b : String) : String :=
  if b.data.head? = some '/' then b
  else if a.data.getLast? = some '/' ∨ a.data = [] then a ++ b
  else a ++ "/" ++ b

/-- Outcome oracle for the `ssh-keygen` subprocess invocation, indexed by
the target path: `true` means exit status success. -/
def KeygenOracle := String → Bool

/-- `generate_ssh_key` (ssh_key.rs lines 133-175): resolve the home
directory (`None` means `dirs::home_dir()` failed), build
`~/.ssh/<name>`, run `ssh-keygen`; on subprocess success register the
path via `add_ssh_key` with `is_default = false` and return the path.
Directory creation and permission setting only fail environmentally and
are modelled as succeeding. -/
def generate_ssh_key (db : Db) (home : Option String) (keygen : KeygenOracle)
    (name now : String) : Db × Except String String :=
  match home with
  | none => (db, Except.error "Could not get home directory")
  | some h =>
    let key_path := pathJoin (pathJoin h ".ssh") name
    if keygen key_path then
      let res := add_ssh_key db name key_path false now
      (res.2, Except.ok key_path)
    else
      (db, Except.error "ssh-keygen failed: ")

/-- The commands registered in `tauri::generate_handler![...]`
(lib.rs lines 27-44), by name. -/
def registered_commands : List String :=
  [ "init_app",
    "add_server", "get_server", "update_server", "delete_server", "get_servers",
    "add_ssh_key", "get_ssh_key", "set_default_ssh_key", "generate_ssh_key",
    "get_setting", "get_settings", "update_setting" ]

/-- Modelled from the spec: the SSH-key entries of the invokable-command
list in section 6 of the external interface (the dispatch table itself is
in `lib.rs`, but the interface list is spec text). -/
def interface_ssh_key_commands : List String :=
  [ "add_ssh_key", "get_ssh_key", "get_ssh_keys", "set_default_ssh_key",
    "delete_ssh_key", "generate_ssh_key" ]

/-- Number of rows currently flagged as the default key. -/
def countDefaults (db : Db) : Nat :=
  (db.rows.filter (fun r => r.is_default)).length

/-- At most one row flagged default: the spec's single-default invariant. -/
def atMostOneDefault (db : Db) : Prop := countDefaults db ≤ 1

/-- Row identifiers are pairwise distinct, as guaranteed by the SQLite
rowid primary key. -/
def IdsNodup (db : Db) : Prop := (db.rows.map Row.id).Nodup

instance (db : Db) : Decidable (atMostOneDefault db) := by
  unfold atMostOneDefault; infer_instance

instance (db : Db) : Decidable (IdsNodup db) := by
  unfold IdsNodup; infer_instance

/-! ### Concrete states used by the witnesses and counterexamples -/

/-- A stored row used by several concrete states. -/
def rowA : Row :=
  { id := 1, name := "work", path := "/home/u/.ssh/id1", is_default := true,
    created_at := "t0", updated_at := "t0" }

/-- A stored non-default row with path `/k`. -/
def rowB : Row :=
  { id := 1, name := "a", path := "/k", is_default := false,
    created_at := "t0", updated_at := "t0" }

/-- One-row database holding `rowA` (its single default); it is the
state reached by `add_ssh_key` on the empty database, as the end-to-end
scenario of the spec begins. -/
def dbA : Db := (add_ssh_key { rows := [], nextId := 1 } "work" "/home/u/.ssh/id1" true "t0").2

/-- One-row database holding `rowB`. -/
def dbB : Db := { rows := [rowB], nextId := 2 }

/-- Filesystem on which removing `/k` fails (the file is absent). -/
def fsEmpty : Fs := { files := [], failing := [] }

/-- Filesystem on which removing `/k` and `/k.pub` both succeed. -/
def fsBoth : Fs := { files := ["/k", "/k.pub"], failing := [] }

/-- An `ssh-keygen` stub that always reports success. -/
def kgAlways : KeygenOracle := fun _ => true

/-! ### Helper lemmas -/

theorem mem_clearDefaults (rows : List Row) :
    ∀ r ∈ clearDefaults rows, r.is_default = false := by
  intro r hr
  rcases List.mem_map.mp hr with ⟨a, _, rfl⟩
  by_cases h : a.is_default <;> simp [h]

theorem clearDefaults_filter (rows : List Row) :
    (clearDefaults rows).filter (fun r => r.is_default) = [] := by
  rw [List.filter_eq_nil_iff]
  intro r hr
  simp [mem_clearDefaults rows r hr]

theorem filter_default_setIf (id : Int) (rows : List Row)
    (h : ∀ r ∈ rows, r.is_default = false) :
    ((rows.map (fun r => if r.id == id then { r with is_default := true } else r)).filter
        (fun r => r.is_default)).length
      = (rows.filter (fun r => r.id == id)).length := by
  induction rows with
  | nil => rfl
  | cons a tl ih =>
    have ha := h a (List.mem_cons_self a tl)
    have htl : ∀ r ∈ tl, r.is_default = false := fun r hr => h r (List.mem_cons_of_mem a hr)
    have iht := ih htl
    by_cases hid : a.id = id
    · simp [List.filter_cons, hid] at iht ⊢
      omega
    · simp [List.filter_cons, hid, ha] at iht ⊢
      omega

theorem clearDefaults_filter_id (id : Int) (rows : List Row) :
    ((clearDefaults rows).filter (fun r => r.id == id)).length
      = (rows.filter (fun r => r.id == id)).length := by
  induction rows with
  | nil => rfl
  | cons a tl ih =>
    by_cases h : a.is_default <;> by_cases hid : a.id = id <;>
      simp [clearDefaults, List.filter_cons, h, hid] <;>
      simpa [clearDefaults] using ih

theorem length_filter_id_le_one (id : Int) (rows : List Row)
    (h : (rows.map Row.id).Nodup) :
    (rows.filter (fun r => r.id == id)).length ≤ 1 := by
  induction rows with
  | nil => simp
  | cons a tl ih =>
    rw [List.map_cons, List.nodup_cons] at h
    by_cases hid : a.id = id
    · have htl : tl.filter (fun r => r.id == id) = [] := by
        rw [List.filter_eq_nil_iff]
        intro r hr hrid
        apply h.1
        have hr' : r.id = id := by simpa using hrid
        rw [hid, ← hr']
        exact List.mem_map_of_mem Row.id hr
      simp [List.filter_cons, hid, htl]
    · simpa [List.filter_cons, hid] using ih h.2

theorem filter_id_eq_nil (id : Int) (rows : List Row)
    (h : ∀ r ∈ rows, r.id ≠ id) :
    rows.filter (fun r => r.id == id) = [] := by
  rw [List.filter_eq_nil_iff]
  intro a ha
  simpa using h a ha

theorem filter_ne_id_eq_self (id : Int) (rows : List Row)
    (h : ∀ r ∈ rows, r.id ≠ id) :
    rows.filter (fun r => !(r.id == id)) = rows := by
  rw [List.filter_eq_self]
  intro a ha
  simpa using h a ha

theorem find_id_eq_none (id : Int) (rows : List Row)
    (h : ∀ r ∈ rows, r.id ≠ id) :
    rows.find? (fun r => r.id == id) = none := by
  rw [List.find?_eq_none]
  intro a ha
  simpa using h a ha

theorem find_id_eq_some (id : Int) (rows : List Row)
    (h : (rows.map Row.id).Nodup) (r : Row) (hr : r ∈ rows) (hrid : r.id = id) :
    rows.find? (fun x => x.id == id) = some r := by
  induction rows with
  | nil => cases hr
  | cons a tl ih =>
    rw [List.map_cons, List.nodup_cons] at h
    rcases List.mem_cons.mp hr with rfl | htl
    · exact List.find?_cons_of_pos tl (by simp [hrid])
    · have hne : ¬(a.id = id) := by
        intro haid
        apply h.1
        rw [haid, ← hrid]
        exact List.mem_map_of_mem Row.id htl
      rw [List.find?_cons_of_neg tl (by simp [hne])]
      exact ih h.2 htl

theorem countDefaults_set_default (db : Db) (id : Int) :
    countDefaults (set_default_ssh_key db id).1
      = (db.rows.filter (fun r => r.id == id)).length := by
  have h1 : countDefaults (set_default_ssh_key db id).1
      = (((clearDefaults db.rows).map
            (fun r => if r.id == id then { r with is_default := true } else r)).filter
          (fun r => r.is_default)).length := rfl
  rw [h1, filter_default_setIf id (clearDefaults db.rows) (mem_clearDefaults db.rows),
    clearDefaults_filter_id]

theorem delete_true_of_find_none (db : Db) (fs : Fs) (id : Int)
    (hf : db.rows.find? (fun r => r.id == id) = none) :
    delete_ssh_key db fs id true = (db, fs, Except.error "Query returned no rows") := by
  unfold delete_ssh_key
  rw [hf]
  exact rfl

theorem delete_true_of_find_some (db : Db) (fs : Fs) (id : Int) (r : Row)
    (hf : db.rows.find? (fun x => x.id == id) = some r) :
    delete_ssh_key db fs id true
      = (match removeFile fs r.path with
         | Except.error e =>
             ({ db with rows := db.rows.filter (fun x => !(x.id == id)) }, fs,
              Except.error ("Failed to delete key file: " ++ e))
         | Except.ok fs1 =>
             ({ db with rows := db.rows.filter (fun x => !(x.id == id)) },
              tryRemoveFile fs1 (r.path ++ ".pub"), Except.ok ())) := by
  unfold delete_ssh_key
  rw [hf]
  exact rfl

/-! ### Claim theorems -/

/-- Claim C1: starting from any database state with pairwise-distinct row
identifiers in which at most one row has `is_default` set, every
successful `add_ssh_key` and every successful `set_default_ssh_key`
leaves at most one row with `is_default` set. -/
theorem single_default_preserved (db : Db) (h1 : atMostOneDefault db) (h2 : IdsNodup db) :
    (∀ nm p d now, atMostOneDefault (add_ssh_key db nm p d now).2) ∧
    (∀ id, atMostOneDefault (set_default_ssh_key db id).1) := by
  constructor
  · intro nm p d now
    unfold atMostOneDefault at h1 ⊢
    cases d
    · have e : countDefaults (add_ssh_key db nm p false now).2 = countDefaults db := by
        unfold countDefaults add_ssh_key
        simp [List.filter_append]
      rw [e]
      exact h1
    · have e : countDefaults (add_ssh_key db nm p true now).2 = 1 := by
        unfold countDefaults add_ssh_key
        simp [List.filter_append, clearDefaults_filter]
      rw [e]
  · intro id
    unfold atMostOneDefault
    rw [countDefaults_set_default]
    exact length_filter_id_le_one id db.rows h2

/-- Closed instance of `single_default_preserved` on the one-row state
`dbA`, discharging both hypotheses by evaluation. -/
theorem single_default_preserved_witness :
    atMostOneDefault dbA ∧ IdsNodup dbA ∧
      atMostOneDefault (add_ssh_key dbA "home" "/home/u/.ssh/id2" true "t1").2 ∧
      atMostOneDefault (set_default_ssh_key dbA 1).1 :=
  ⟨by decide, by decide,
   (single_default_preserved dbA (by decide) (by decide)).1 "home" "/home/u/.ssh/id2" true "t1",
   (single_default_preserved dbA (by decide) (by decide)).2 1⟩

/-- Claim C2, counterexample: on the one-row state `dbA` (one default,
row id 1), `set_default_ssh_key 2` succeeds yet leaves zero — not
exactly one — rows with the default flag set. -/
theorem set_default_count_counterexample :
    (set_default_ssh_key dbA 2).2 = Except.ok () ∧
    countDefaults (set_default_ssh_key dbA 2).1 ≠ 1 :=
  ⟨rfl, by decide⟩

/-- Claim C2 as amended: with pairwise-distinct row identifiers, after a
successful `set_default_ssh_key id` exactly one row has the default flag
set when a row with that id exists, and zero rows have it otherwise. -/
theorem set_default_exact_count (db : Db) (id : Int) (h : IdsNodup db) :
    ((∃ r ∈ db.rows, r.id = id) → countDefaults (set_default_ssh_key db id).1 = 1) ∧
    ((∀ r ∈ db.rows, r.id ≠ id) → countDefaults (set_default_ssh_key db id).1 = 0) := by
  constructor
  · rintro ⟨r, hr, hrid⟩
    rw [countDefaults_set_default]
    have hle := length_filter_id_le_one id db.rows h
    have hmem : r ∈ db.rows.filter (fun x => x.id == id) :=
      List.mem_filter.mpr ⟨hr, by simp [hrid]⟩
    have hpos := List.length_pos_of_mem hmem
    omega
  · intro hnone
    rw [countDefaults_set_default, filter_id_eq_nil id db.rows hnone]
    rfl

/-- Closed instance of `set_default_exact_count` on `dbA`: setting the
existing id 1 leaves exactly one default, setting the absent id 5 leaves
zero. -/
theorem set_default_exact_count_witness :
    IdsNodup dbA ∧ countDefaults (set_default_ssh_key dbA 1).1 = 1 ∧
      countDefaults (set_default_ssh_key dbA 5).1 = 0 :=
  ⟨by decide,
   (set_default_exact_count dbA 1 (by decide)).1 ⟨rowA, by decide, by decide⟩,
   (set_default_exact_count dbA 5 (by decide)).2 (by decide)⟩

/-- Claim C9: `set_default_ssh_key id` returns `Ok(())` even when no row
with the given id exists, and in that case zero rows are left with the
default flag set. -/
theorem set_default_missing_id (db : Db) (id : Int) (h : ∀ r ∈ db.rows, r.id ≠ id) :
    (set_default_ssh_key db id).2 = Except.ok () ∧
    countDefaults (set_default_ssh_key db id).1 = 0 := by
  refine ⟨rfl, ?_⟩
  rw [countDefaults_set_default, filter_id_eq_nil id db.rows h]
  rfl

/-- Closed instance of `set_default_missing_id` on `dbB` with the absent
id 3. -/
theorem set_default_missing_id_witness :
    (∀ r ∈ dbB.rows, r.id ≠ (3 : Int)) ∧
      ((set_default_ssh_key dbB 3).2 = Except.ok () ∧
        countDefaults (set_default_ssh_key dbB 3).1 = 0) :=
  ⟨by decide, set_default_missing_id dbB 3 (by decide)⟩

/-- Claim C6: `add_ssh_key` returns the identifier assigned to the new
row; the new state is the old rows — first stripped of every default
flag when `is_default` is true, unchanged otherwise — followed by a
fresh row carrying `now` as both `created_at` and `updated_at`. -/
theorem add_ssh_key_spec (db : Db) (nm p now : String) (d : Bool) :
    (add_ssh_key db nm p d now).1 = db.nextId ∧
    (add_ssh_key db nm p d now).2.rows
      = (if d then clearDefaults db.rows else db.rows)
          ++ [{ id := db.nextId, name := nm, path := p, is_default := d,
                created_at := now, updated_at := now }] ∧
    (∀ r ∈ clearDefaults db.rows, r.is_default = false) := by
  refine ⟨?_, ?_, mem_clearDefaults db.rows⟩ <;> cases d <;> rfl

/-- Closed instance of `add_ssh_key_spec` on `dbB`: adding a default key
returns the next rowid and appends the timestamped row after clearing
the existing defaults. -/
theorem add_ssh_key_spec_witness :
    (add_ssh_key dbB "home" "/home/u/.ssh/id2" true "t1").1 = dbB.nextId ∧
    (add_ssh_key dbB "home" "/home/u/.ssh/id2" true "t1").2.rows
      = clearDefaults dbB.rows
          ++ [{ id := dbB.nextId, name := "home", path := "/home/u/.ssh/id2",
                is_default := true, created_at := "t1", updated_at := "t1" }] :=
  ⟨(add_ssh_key_spec dbB "home" "/home/u/.ssh/id2" "t1" true).1,
   (add_ssh_key_spec dbB "home" "/home/u/.ssh/id2" "t1" true).2.1⟩

/-- Claim C7: with pairwise-distinct row identifiers, `get_ssh_key`
returns the single row whose identifier matches, and returns the
rusqlite no-rows error when no row matches. -/
theorem get_ssh_key_spec (db : Db) (id : Int) (h : IdsNodup db) :
    (∀ r ∈ db.rows, r.id = id → get_ssh_key db id = Except.ok (toSshKey r)) ∧
    ((∀ r ∈ db.rows, r.id ≠ id) →
      get_ssh_key db id = Except.error "Query returned no rows") := by
  constructor
  · intro r hr hrid
    unfold get_ssh_key
    rw [find_id_eq_some id db.rows h r hr hrid]
  · intro hnone
    unfold get_ssh_key
    rw [find_id_eq_none id db.rows hnone]

/-- Closed instance of `get_ssh_key_spec` on `dbA`: id 1 yields the
stored record, id 9 yields the no-rows error. -/
theorem get_ssh_key_spec_witness :
    IdsNodup dbA ∧ get_ssh_key dbA 1 = Except.ok (toSshKey rowA) ∧
      get_ssh_key dbA 9 = Except.error "Query returned no rows" :=
  ⟨by decide,
   (get_ssh_key_spec dbA 1 (by decide)).1 rowA (by decide) (by decide),
   (get_ssh_key_spec dbA 9 (by decide)).2 (by decide)⟩

/-- Claim C5: with `delete_file = false`, `delete_ssh_key` only filters
the row out of the database and leaves the filesystem state untouched,
whether or not a row with the id exists. -/
theorem delete_ssh_key_no_fs_touch (db : Db) (fs : Fs) (id : Int) :
    delete_ssh_key db fs id false
      = ({ db with rows := db.rows.filter (fun r => !(r.id == id)) }, fs, Except.ok ()) := rfl

/-- Claim C4: when the id resolves to a row, `delete_ssh_key` with
`delete_file = true` first deletes the row and then removes the private
key file: if that removal fails the call returns an error with the row
nonetheless already gone and the filesystem unchanged, and if it
succeeds the call returns `Ok` with the `.pub` companion removed only
best-effort. -/
theorem delete_ssh_key_file_order (db : Db) (fs : Fs) (id : Int) (r : Row)
    (hf : db.rows.find? (fun x => x.id == id) = some r) :
    (∀ e, removeFile fs r.path = Except.error e →
        delete_ssh_key db fs id true
          = ({ db with rows := db.rows.filter (fun x => !(x.id == id)) }, fs,
             Except.error ("Failed to delete key file: " ++ e))) ∧
    (∀ fs1, removeFile fs r.path = Except.ok fs1 →
        delete_ssh_key db fs id true
          = ({ db with rows := db.rows.filter (fun x => !(x.id == id)) },
             tryRemoveFile fs1 (r.path ++ ".pub"), Except.ok ())) := by
  constructor
  · intro e he
    rw [delete_true_of_find_some db fs id r hf, he]
  · intro fs1 he
    rw [delete_true_of_find_some db fs id r hf, he]

/-- Closed instance of `delete_ssh_key_file_order` on `dbB`: on `fsEmpty`
the private-file removal fails and the call errors with the row already
deleted; on `fsBoth` it succeeds and also removes the companion file. -/
theorem delete_ssh_key_file_order_witness :
    (delete_ssh_key dbB fsEmpty 1 true
        = ({ dbB with rows := dbB.rows.filter (fun x => !(x.id == 1)) }, fsEmpty,
           Except.error ("Failed to delete key file: " ++ "No such file or directory"))) ∧
    (delete_ssh_key dbB fsBoth 1 true
        = ({ dbB with rows := dbB.rows.filter (fun x => !(x.id == 1)) },
           tryRemoveFile { files := ["/k.pub"], failing := [] } (rowB.path ++ ".pub"),
           Except.ok ())) :=
  ⟨(delete_ssh_key_file_order dbB fsEmpty 1 rowB rfl).1 "No such file or directory" rfl,
   (delete_ssh_key_file_order dbB fsBoth 1 rowB rfl).2 { files := ["/k.pub"], failing := [] } rfl⟩

/-- Claim C10: on an id with no matching row, `delete_ssh_key` with
`delete_file = false` succeeds and changes nothing, while with
`delete_file = true` the path lookup fails, nothing is deleted, and an
error is returned. -/
theorem delete_ssh_key_missing_id (db : Db) (fs : Fs) (id : Int)
    (h : ∀ r ∈ db.rows, r.id ≠ id) :
    delete_ssh_key db fs id false = (db, fs, Except.ok ()) ∧
    delete_ssh_key db fs id true = (db, fs, Except.error "Query returned no rows") := by
  constructor
  · have e : delete_ssh_key db fs id false
        = ({ db with rows := db.rows.filter (fun r => !(r.id == id)) }, fs, Except.ok ()) := rfl
    rw [e, filter_ne_id_eq_self id db.rows h]
  · exact delete_true_of_find_none db fs id (find_id_eq_none id db.rows h)

/-- Closed instance of `delete_ssh_key_missing_id` on `dbB` with the
absent id 7. -/
theorem delete_ssh_key_missing_id_witness :
    (∀ r ∈ dbB.rows, r.id ≠ (7 : Int)) ∧
      (delete_ssh_key dbB fsBoth 7 false = (dbB, fsBoth, Except.ok ()) ∧
        delete_ssh_key dbB fsBoth 7 true
          = (dbB, fsBoth, Except.error "Query returned no rows")) :=
  ⟨by decide, delete_ssh_key_missing_id dbB fsBoth 7 (by decide)⟩

/-- Claim C8: when the `ssh-keygen` subprocess succeeds on the target
path, `generate_ssh_key` registers that path through `add_ssh_key` with
the default flag false and returns it; the path is the home directory
`PathBuf::join`-ed with `.ssh` and then with the given name. -/
theorem generate_ssh_key_spec (db : Db) (h nm now : String) (kg : KeygenOracle)
    (hk : kg (pathJoin (pathJoin h ".ssh") nm) = true) :
    generate_ssh_key db (some h) kg nm now
      = ((add_ssh_key db nm (pathJoin (pathJoin h ".ssh") nm) false now).2,
         Except.ok (pathJoin (pathJoin h ".ssh") nm)) := by
  have e : generate_ssh_key db (some h) kg nm now
      = (if kg (pathJoin (pathJoin h ".ssh") nm) then
           ((add_ssh_key db nm (pathJoin (pathJoin h ".ssh") nm) false now).2,
            Except.ok (pathJoin (pathJoin h ".ssh") nm))
         else (db, Except.error "ssh-keygen failed: ")) := rfl
  rw [e, if_pos hk]

/-- Closed instance of `generate_ssh_key_spec` on `dbB` with the stub
oracle `kgAlways` and home `/home/u`: the joined path evaluates to
`/home/u/.ssh/id_test`, the end-to-end scenario of the spec. -/
theorem generate_ssh_key_spec_witness :
    generate_ssh_key dbB (some "/home/u") kgAlways "id_test" "t1"
        = ((add_ssh_key dbB "id_test" (pathJoin (pathJoin "/home/u" ".ssh") "id_test")
              false "t1").2,
           Except.ok (pathJoin (pathJoin "/home/u" ".ssh") "id_test")) ∧
      pathJoin (pathJoin "/home/u" ".ssh") "id_test" = "/home/u/.ssh/id_test" :=
  ⟨generate_ssh_key_spec dbB "/home/u" "id_test" "t1" kgAlways rfl, by decide⟩

/-- Claim C3: the spec's external interface lists `delete_ssh_key` and
`get_ssh_keys` among the SSH-key commands, but neither appears in the
`tauri::generate_handler!` registration list of `lib.rs`. -/
theorem dispatch_missing_commands :
    ("delete_ssh_key" ∈ interface_ssh_key_commands ∧
      "delete_ssh_key" ∉ registered_commands) ∧
    ("get_ssh_keys" ∈ interface_ssh_key_commands ∧
      "get_ssh_keys" ∉ registered_commands) := by decide

end Syndeos
